import Mathlib

/-!
Verification development for the mantle telemetry historian.

This file gives a shallow embedding, in Lean, of the parts of the source
that the specification talks about: the history value routing and
timestamp normalisation (src/history.ts), the windowed history query
(getHistory in src/history.ts), the alarm engine state machine
(src/unnamed/part_010, i.e. alarms.ts), the hidden-item filter
(src/unnamed/part_014, hidden.ts), and the delete / groups GraphQL
resolvers (src/unnamed/part_019, server schema).

Conventions used throughout the embedding:
* JavaScript numbers, Long values and SQL numeric columns are modelled as
  Int (timestamps, thresholds, delays) or Rat (stored float values and
  SQL averages); the claims under study never depend on floating point
  rounding.
* null / undefined is modelled as Option.none.  Where JavaScript
  truthiness matters (e.g. `if (timestamp)`, `deviceId || null`) the
  embedding tests the value exactly as the source does (0 and the empty
  string are falsy).
* Database effects are modelled by explicit state passing: a function
  that updates tables takes and returns the table contents as lists.
* Fallible operations return Except String, mirroring the Result type of the source
   from dark-matter (createSuccess / createFail).
-/

namespace Mantle

/-- A JavaScript value carried by a Sparkplug metric: a number (int or
float collapsed to Rat), a string, or a boolean.  null / undefined is
represented by wrapping in Option at the use sites. -/
inductive JsValue where
  | num (v : Rat)
  | str (s : String)
  | boolean (b : Bool)
deriving DecidableEq

/-- JavaScript template interpolation of a possibly-null value, as in
the backquoted template strings of the source.  The exact rendering of numbers is not
load-bearing for any claim (only the fact that the result is a non-null
string is); null interpolates to the text form of null. -/
def jsTemplate : Option JsValue → String
  | none => "null"
  | some (.num v) => toString v
  | some (.str s) => s
  | some (.boolean b) => toString b

/-- ASCII lower-casing of one character, agreeing with the JavaScript
toLowerCase on the ASCII type tags the source compares; written out so
the kernel can evaluate it on concrete strings. -/
def lowerChar (c : Char) : Char :=
  if 65 ≤ c.toNat ∧ c.toNat ≤ 90 then Char.ofNat (c.toNat + 32) else c

/-- toLowerCase over the character list. -/
def lowerStr (s : String) : String := String.mk (s.data.map lowerChar)

/-- startsWith over the character list. -/
def strStarts (s p : String) : Bool := p.data.isPrefixOf s.data

/-- Embeds getValueType (src/history.ts lines 26-42): case-insensitive
routing of metric.type onto the physical history column. -/
def getValueType (type : String) : String :=
  if strStarts (lowerStr type) "int" || strStarts (lowerStr type) "uint" then
    "intValue"
  else if lowerStr type == "float" || lowerStr type == "double" then
    "floatValue"
  else if lowerStr type == "boolean" then
    "boolValue"
  else
    "stringValue"

/-- Embeds calcTimestamp, the variant at src/history.ts lines 429-446:
a truthy numeric (or Long, collapsed to Int here) timestamp below 10^12
is taken to be in seconds and scaled to milliseconds, larger values are
already milliseconds and kept unchanged.  `if (timestamp)` makes 0
falsy, returning null. -/
def calcTimestamp (timestamp : Option Int) : Option Int :=
  match timestamp with
  | none => none
  | some t =>
      if t == 0 then none
      else if t < 10 ^ 12 then some (t * 1000) else some t

/-- Embeds the other calcTimestamp variant, src/history.ts lines 49-60:
it unconditionally multiplies every truthy timestamp by 1000, with no
seconds-versus-milliseconds test. -/
def calcTimestampV1 (timestamp : Option Int) : Option Int :=
  match timestamp with
  | none => none
  | some t => if t == 0 then none else some (t * 1000)

/-- A decoded Sparkplug metric as consumed by recordValues: name, type
tag, value and optional per-metric timestamp. -/
structure SpMetric where
  name : Option String
  type : String
  value : Option JsValue
  timestamp : Option Int
deriving DecidableEq

/-- A history table record as built by recordValues (src/history.ts
lines 84-96).  The four value columns keep whatever JavaScript value the
ternary assigned (the `as number` / `as boolean` casts in the source are
erased at runtime), so they are Option JsValue except the string column,
which is always the template interpolation of the value. -/
structure HistoryRecord where
  groupId : String
  nodeId : String
  deviceId : Option String
  metricId : String
  timestamp : Int
  intValue : Option JsValue
  floatValue : Option JsValue
  stringValue : Option String
  boolValue : Option JsValue
deriving DecidableEq

/-- JavaScript `a || b` on optional timestamps: a is used when truthy
(non-null and non-zero), otherwise b. -/
def jsOrTimestamp (a b : Option Int) : Option Int :=
  match a with
  | some v => if v == 0 then b else some v
  | none => b

/-- JavaScript `deviceId || null`: the empty string collapses to
null. -/
def normalizeDevice (deviceId : Option String) : Option String :=
  match deviceId with
  | some d => if d == "" then none else some d
  | none => none

/-- Number of value columns of a record that are non-null. -/
def HistoryRecord.someCount (r : HistoryRecord) : Nat :=
  (if r.intValue.isSome then 1 else 0) + (if r.floatValue.isSome then 1 else 0)
    + (if r.stringValue.isSome then 1 else 0)
    + (if r.boolValue.isSome then 1 else 0)

/-- The loop body of recordValues (src/history.ts lines 77-107): for a
metric with a truthy name and a non-null computed timestamp, build one
history record whose value columns are routed by getValueType; the
`as number` / `as boolean` casts are erased at runtime so each routed
column simply receives metric.value (null included), while the string
column receives the template interpolation of the value.  This variant
of the file calls the calcTimestamp at lines 49-60 (calcTimestampV1
here).  Metrics failing the guard are logged and skipped. -/
def recordForMetric (groupId edgeNode : String) (deviceId : Option String)
    (payloadTimestamp : Option Int) (metric : SpMetric) :
    Option HistoryRecord :=
  match metric.name,
    calcTimestampV1 (jsOrTimestamp metric.timestamp payloadTimestamp) with
  | some name, some ts =>
      if name == "" then none
      else
        some
          { groupId := groupId
            nodeId := edgeNode
            metricId := name
            deviceId := normalizeDevice deviceId
            timestamp := ts
            intValue := if getValueType metric.type == "intValue" then metric.value else none
            floatValue := if getValueType metric.type == "floatValue" then metric.value else none
            stringValue := if getValueType metric.type == "stringValue" then some (jsTemplate metric.value) else none
            boolValue := if getValueType metric.type == "boolValue" then metric.value else none }
  | _, _ => none

/-- Embeds recordValues (src/history.ts lines 69-109): one record per
metric passing the name-and-timestamp guard. -/
def recordValues (groupId edgeNode : String) (deviceId : Option String)
    (payloadTimestamp : Option Int) (metrics : List SpMetric) :
    List HistoryRecord :=
  metrics.filterMap (recordForMetric groupId edgeNode deviceId payloadTimestamp)

/-- Embeds the autoInterval computation of getHistory (src/history.ts
lines 149-151): floor((end-start) / (1000 * (samples ?? 100))) seconds.
JavaScript division by zero (samples = 0) yields Infinity, whose
template interpolation is not a valid interval; that case is modelled as
none. -/
def autoIntervalSeconds (startMs endMs : Int) (samples : Option Int) :
    Option Int :=
  let s := samples.getD 100
  if s = 0 then none else some (Int.fdiv (endMs - startMs) (1000 * s))

/-- The auto-interval formula as the specification words it (section
4.C3 step 1): max(1, floor((end-start)/(1000*samples))) with samples
defaulting to 100.  Stated from the spec, for comparison with the
source-derived autoIntervalSeconds. -/
def specAutoIntervalSeconds (startMs endMs : Int) (samples : Option Int) :
    Int :=
  max 1 (Int.fdiv (endMs - startMs) (1000 * samples.getD 100))

/-! ## Windowed history query (getHistory, src/history.ts lines 131-214) -/

/-- A stored row of the history table (src/db/schema.ts): the four typed
value columns plus identity and timestamp.  device_id is nullable. -/
structure HistoryRow where
  groupId : String
  nodeId : String
  deviceId : Option String
  metricId : String
  intValue : Option Int
  floatValue : Option Rat
  stringValue : Option String
  boolValue : Option Bool
  timestamp : Int
deriving DecidableEq

/-- One requested identity of the history query. -/
structure MetricInput where
  groupId : String
  nodeId : String
  deviceId : Option String
  metricId : String
deriving DecidableEq

/-- JavaScript template interpolation of a nullable string, as used when
the source splices request fields into the SQL literal and into the JSON
lookup key: null interpolates to the four-letter text "null". -/
def jsShowOpt : Option String → String
  | none => "null"
  | some s => s

/-- Embeds the normalizedMetrics map of getHistory: deviceId is kept
only when truthy (the empty string collapses to null). -/
def normalizeInput (m : MetricInput) : MetricInput :=
  { m with deviceId := normalizeDevice m.deviceId }

/-- SQL tuple membership for the raw IN clause of getHistory: the row
tuple (group_id, node_id, device_id, metric_id) is compared against the
interpolated literals; a NULL device_id compares unequal to every
literal (three-valued SQL equality), and a null requested deviceId was
interpolated as the literal text "null". -/
def rowMatchesInput (r : HistoryRow) (m : MetricInput) : Bool :=
  r.groupId == m.groupId && r.nodeId == m.nodeId &&
    (match r.deviceId with
      | none => false
      | some d => d == jsShowOpt m.deviceId) &&
    r.metricId == m.metricId

def rowMatches (metrics : List MetricInput) (r : HistoryRow) : Bool :=
  metrics.any (rowMatchesInput r)

/-- The SQL CONCAT of group_id, node_id, device_id and metric_id with
slash separators, naming a row; Postgres CONCAT renders NULL as empty. -/
def rowName (r : HistoryRow) : String :=
  r.groupId ++ "/" ++ r.nodeId ++ "/" ++ r.deviceId.getD "" ++ "/" ++ r.metricId

/-- The JavaScript lookup key built from a (normalized) requested
metric. -/
def inputKey (m : MetricInput) : String :=
  m.groupId ++ "/" ++ m.nodeId ++ "/" ++ jsShowOpt m.deviceId ++ "/" ++ m.metricId

/-- time_bucket of the time-series engine, modelled per the glossary
of the spec as flooring the timestamp to a whole number of buckets of the
given width in seconds ("a uniform time interval whose phase is
anchored to the epoch").  The actual origin constant of the engine shifts
every bucket boundary by a fixed offset and is immaterial to the claims
proved here. -/
def timeBucket (widthSec ts : Int) : Int :=
  widthSec * 1000 * Int.fdiv ts (widthSec * 1000)

/-- The rows selected by the WHERE clause: identity matched by the IN
clause and timestamp BETWEEN start AND end (inclusive). -/
def inWindowRows (rows : List HistoryRow) (metrics : List MetricInput)
    (startMs endMs : Int) : List HistoryRow :=
  rows.filter (fun r =>
    rowMatches metrics r && startMs ≤ r.timestamp && r.timestamp ≤ endMs)

/-- SQL AVG over the non-null float_value entries of a row group. -/
def ratAvg (xs : List Rat) : Rat := xs.sum / (xs.length : Rat)

/-- The value the query reports for requested metric key `key` at
reported time `t`: the AVG("float_value") of the (time, name) group, or
none when the group is absent from json_object_agg (no matching row at
that time) or its average is SQL NULL (no non-null float_value in the
group).  Both cases are dropped by the final
`filter(h => h.value !== null && h.value !== undefined)` of the
source. -/
def seriesPoint (inWin : List HistoryRow) (timeOf : Int → Int)
    (key : String) (t : Int) : Option (Int × Rat) :=
  let grp := inWin.filter (fun r => timeOf r.timestamp == t && rowName r == key)
  if grp.isEmpty then none
  else
    let vals := grp.filterMap (fun r => r.floatValue)
    if vals.isEmpty then none else some (t, ratAvg vals)

/-- The reported times: one per distinct value of the time column among
the selected rows (outer GROUP BY time).  SQL returns them in
unspecified order; the embedding keeps first-occurrence order, and no
claim below concerns ordering. -/
def seriesFor (inWin : List HistoryRow) (timeOf : Int → Int)
    (m : MetricInput) : List (Int × Rat) :=
  ((inWin.map (fun r => timeOf r.timestamp)).dedup).filterMap
    (seriesPoint inWin timeOf (inputKey m))

/-- Embeds getHistory (src/history.ts lines 131-214).

The time column is the raw "timestamp" when the raw argument is null /
undefined, and time_bucket(interval ?? autoInterval, "timestamp")
otherwise — note the source tests `raw == null`, so raw=false and
raw=true both take the bucketed branch.  interval is modelled already
parsed to whole seconds; a missing interval falls back to
autoIntervalSeconds, and a non-positive or undefined (samples = 0)
bucket width is rejected by the database, surfacing through the
catch of the source as a Fail result (Except.error here). -/
def getHistory (rows : List HistoryRow) (metrics : List MetricInput)
    (startMs endMs : Int) (interval : Option Int) (samples : Option Int)
    (raw : Option Bool) :
    Except String (List (MetricInput × List (Int × Rat))) :=
  let normalized := metrics.map normalizeInput
  let inWin := inWindowRows rows metrics startMs endMs
  match raw with
  | none =>
      Except.ok (normalized.map (fun m => (m, seriesFor inWin id m)))
  | some _ =>
      match interval.orElse (fun _ => autoIntervalSeconds startMs endMs samples) with
      | none => Except.error "invalid bucket interval"
      | some w =>
          if 0 < w then
            Except.ok (normalized.map (fun m => (m, seriesFor inWin (timeBucket w) m)))
          else Except.error "invalid bucket interval"

/-- The COALESCE("float_value", "int_value"::real, "bool_value"::int::
real) aggregate input named by the specification (section 4.C3 step 2).
Stated from the spec, for comparison with the source query, which
aggregates AVG("float_value") alone. -/
def specCoalesceValue (r : HistoryRow) : Option Rat :=
  (r.floatValue.orElse (fun _ => r.intValue.map (fun i => (i : Rat)))).orElse
    (fun _ => r.boolValue.map (fun b => if b then 1 else 0))

/-! ## Alarm engine (src/unnamed/part_010, alarms.ts) -/

/-- A row of alarm_rules (src/db/schema.ts).  createdAt / updatedAt are
never consulted by the embedded operations and are omitted. -/
structure AlarmRule where
  id : String
  groupId : String
  nodeId : String
  deviceId : String
  metricId : String
  name : String
  ruleType : String
  threshold : Option Rat
  delaySec : Int
  enabled : Bool
deriving DecidableEq

/-- A row of alarm_state (src/db/schema.ts); timestamps in ms. -/
structure AlarmStateRow where
  ruleId : String
  state : String
  conditionMetAt : Option Int
  activatedAt : Option Int
  lastNotifiedAt : Option Int
  lastValue : Option String
  updatedAt : Int
deriving DecidableEq

/-- A row of alarm_history (src/db/schema.ts). -/
structure AlarmHistoryRow where
  id : String
  ruleId : String
  fromState : String
  toState : String
  value : Option String
  timestamp : Int
deriving DecidableEq

/-- The AlarmTransition record published on the alarmStateChange topic
and posted to the webhook.  The timestamp is kept as ms (the source
serialises it to ISO text). -/
structure AlarmTransition where
  ruleId : String
  ruleName : String
  fromState : String
  toState : String
  metricPath : String
  metricDescription : Option String
  value : Option String
  ruleType : String
  threshold : Option Rat
  timestamp : Int
deriving DecidableEq

/-- The alarm tables of the database, as explicit state. -/
structure AlarmDb where
  rules : List AlarmRule
  states : List AlarmStateRow
  history : List AlarmHistoryRow
deriving DecidableEq

/-- Observable side effects of an engine operation: events published on
the alarmStateChange topic, webhook deliveries attempted, and delay
timers scheduled as (ruleId, delay ms) pairs. -/
structure AlarmEffects where
  published : List AlarmTransition
  webhooks : List AlarmTransition
  timers : List (String × Int)
deriving DecidableEq

def emptyEffects : AlarmEffects := ⟨[], [], []⟩

def AlarmEffects.merge (a b : AlarmEffects) : AlarmEffects :=
  ⟨a.published ++ b.published, a.webhooks ++ b.webhooks, a.timers ++ b.timers⟩

/-- Embeds metricPath (part_010 lines 73-82): deviceId is included only
when truthy. -/
def metricPath (groupId nodeId deviceId metricId : String) : String :=
  if deviceId == "" then groupId ++ "/" ++ nodeId ++ "/" ++ metricId
  else groupId ++ "/" ++ nodeId ++ "/" ++ deviceId ++ "/" ++ metricId

def findState (states : List AlarmStateRow) (ruleId : String) :
    Option AlarmStateRow :=
  states.find? (fun st => st.ruleId == ruleId)

def findRule (rules : List AlarmRule) (id : String) : Option AlarmRule :=
  rules.find? (fun r => r.id == id)

/-- The alarm_state UPDATE assembled by transitionState (part_010 lines
166-184): state, lastValue and updatedAt always change; entry to
pending sets condition_met_at, entry to active sets activated_at, entry
to normal clears both. -/
def applyStateUpdate (toState : String) (value : Option String) (now : Int)
    (r : AlarmStateRow) : AlarmStateRow :=
  let r1 := { r with state := toState, lastValue := value, updatedAt := now }
  if toState == "pending" then { r1 with conditionMetAt := some now }
  else if toState == "active" then { r1 with activatedAt := some now }
  else if toState == "normal" then
    { r1 with conditionMetAt := none, activatedAt := none }
  else r1

/-- Embeds transitionState (part_010 lines 157-233): update the
alarm_state row of the rule, append one alarm_history row, publish the
transition on alarmStateChange, and fire the webhook exactly when the
target state is active or the transition leaves a non-normal state for
normal.  historyId stands for the nanoid() of the history row and
metricDescription for the getMetricDescription lookup; no claim
inspects either. -/
def transitionState (db : AlarmDb) (rule : AlarmRule)
    (fromState toState : String) (value : Option String) (now : Int)
    (historyId : String) (metricDescription : Option String) :
    AlarmDb × AlarmEffects :=
  let states := db.states.map (fun r =>
    if r.ruleId == rule.id then applyStateUpdate toState value now r else r)
  let hist := db.history ++
    [{ id := historyId, ruleId := rule.id, fromState, toState, value,
       timestamp := now }]
  let tr : AlarmTransition :=
    { ruleId := rule.id, ruleName := rule.name, fromState, toState,
      metricPath := metricPath rule.groupId rule.nodeId rule.deviceId rule.metricId,
      metricDescription, value, ruleType := rule.ruleType,
      threshold := rule.threshold, timestamp := now }
  let webhooks :=
    if toState == "active" || (toState == "normal" && fromState != "normal")
    then [tr] else []
  (⟨db.rules, states, hist⟩, ⟨[tr], webhooks, []⟩)

/-- Embeds acknowledgeAlarm (part_010 lines 539-618): fail when no
alarm_state row exists for the rule or its state is not active; else
set the state to acknowledged, and — when the rule row is found —
append one history row and publish the transition (no webhook on
acknowledgement). -/
def acknowledgeAlarm (db : AlarmDb) (ruleId : String) (now : Int)
    (historyId : String) (metricDescription : Option String) :
    Except String AlarmStateRow × AlarmDb × AlarmEffects :=
  match findState db.states ruleId with
  | none =>
      (Except.error ("Alarm state for rule " ++ ruleId ++ " not found"), db,
        emptyEffects)
  | some current =>
      if current.state != "active" then
        (Except.error ("Cannot acknowledge alarm in state \"" ++ current.state
          ++ "\" — must be \"active\""), db, emptyEffects)
      else
        let states := db.states.map (fun r =>
          if r.ruleId == ruleId then
            { r with state := "acknowledged", updatedAt := now }
          else r)
        let updated := { current with state := "acknowledged", updatedAt := now }
        match findRule db.rules ruleId with
        | none => (Except.ok updated, ⟨db.rules, states, db.history⟩, emptyEffects)
        | some rule =>
            let hist := db.history ++
              [{ id := historyId, ruleId, fromState := "active",
                 toState := "acknowledged", value := current.lastValue,
                 timestamp := now }]
            let tr : AlarmTransition :=
              { ruleId, ruleName := rule.name, fromState := "active",
                toState := "acknowledged",
                metricPath := metricPath rule.groupId rule.nodeId rule.deviceId rule.metricId,
                metricDescription, value := current.lastValue,
                ruleType := rule.ruleType, threshold := rule.threshold,
                timestamp := now }
            (Except.ok updated, ⟨db.rules, states, hist⟩, ⟨[tr], [], []⟩)

/-- One iteration of the pending-restore loop of initializeAlarms
(part_010 lines 715-754): skip when the rule row is missing or the rule
is disabled (the state row is left untouched), otherwise compute
remaining = delaySec*1000 - (now - condition_met_at); transition
pending → active immediately when remaining ≤ 0, else schedule a timer
with the remaining delay. -/
def initStep (now : Int) (acc : AlarmDb × AlarmEffects)
    (st : AlarmStateRow) : AlarmDb × AlarmEffects :=
  match findRule acc.1.rules st.ruleId with
  | none => acc
  | some rule =>
      if !rule.enabled then acc
      else
        match st.conditionMetAt with
        | none => acc
        | some t0 =>
            if rule.delaySec * 1000 - (now - t0) ≤ 0 then
              let r := transitionState acc.1 rule "pending" "active"
                st.lastValue now (st.ruleId ++ ":init") none
              (r.1, acc.2.merge r.2)
            else
              (acc.1,
                acc.2.merge ⟨[], [], [(rule.id, rule.delaySec * 1000 - (now - t0))]⟩)

/-- Embeds the pending-restore phase of initializeAlarms (part_010
lines 695-761): iterate over the alarm_state rows whose state is
pending (selected once, up front) and apply initStep to each.  The
rule-cache loading that precedes it touches no durable state and no
claim concerns it. -/
def initializeAlarms (db : AlarmDb) (now : Int) : AlarmDb × AlarmEffects :=
  (db.states.filter (fun st => st.state == "pending")).foldl
    (initStep now) (db, emptyEffects)

/-! ## Hidden-item filter (src/unnamed/part_014, hidden.ts) and the
groups query resolver (src/unnamed/part_019) -/

/-- A row of hidden_items (src/db/schema.ts): deviceId and metricId are
non-null with default empty string; an empty metricId means the whole
node or device is hidden. -/
structure HiddenItemRec where
  groupId : String
  nodeId : String
  deviceId : String
  metricId : String
  hiddenAt : Int
deriving DecidableEq

/-- Embeds getHiddenItemKeys (part_014 lines 297-318): one key per row,
shaped by which level the row targets (JavaScript truthiness: the empty
string does not count as a metric / device id). -/
def getHiddenItemKeys (items : List HiddenItemRec) : List String :=
  items.map (fun item =>
    if item.metricId != "" then
      item.groupId ++ "/" ++ item.nodeId ++ "/" ++ item.deviceId ++ "/" ++ item.metricId
    else if item.deviceId != "" then
      "device:" ++ item.groupId ++ "/" ++ item.nodeId ++ "/" ++ item.deviceId
    else
      "node:" ++ item.groupId ++ "/" ++ item.nodeId)

/-- Embeds shouldFilter (part_014 lines 324-350).  deviceId and
metricId are optional arguments in the source; JavaScript truthiness
makes both undefined and the empty string skip the device check. -/
def shouldFilter (hiddenKeys : List String) (groupId nodeId : String)
    (deviceId : Option String) (metricId : Option String) : Bool :=
  if hiddenKeys.contains ("node:" ++ groupId ++ "/" ++ nodeId) then true
  else if (match deviceId with | some d => d != "" | none => false) &&
      hiddenKeys.contains
        ("device:" ++ groupId ++ "/" ++ nodeId ++ "/" ++ deviceId.getD "")
    then true
  else
    match metricId with
    | some m =>
        if m != "" then
          hiddenKeys.contains
            (groupId ++ "/" ++ nodeId ++ "/" ++ deviceId.getD "" ++ "/" ++ m)
        else false
    | none => false

/-- Flattened topology shapes as produced by flattenHostGroups of the
synapse library and consumed by the groups resolver; only the fields
the resolver touches are modelled.  A metric may lack a name (the
resolver keeps unnamed metrics unconditionally). -/
structure MetricFlat where
  name : Option String
deriving DecidableEq

structure DeviceFlat where
  id : String
  metrics : List MetricFlat
deriving DecidableEq

structure NodeFlat where
  id : String
  devices : List DeviceFlat
  metrics : List MetricFlat
deriving DecidableEq

structure GroupFlat where
  id : String
  nodes : List NodeFlat
deriving DecidableEq

/-- The per-metric keep test of the resolver: unnamed metrics are kept
unconditionally (`!metric.name || !shouldFilter(...)`). -/
def keepMetric (hiddenKeys : List String) (groupId nodeId : String)
    (deviceId : Option String) (metric : MetricFlat) : Bool :=
  match metric.name with
  | none => true
  | some name => !shouldFilter hiddenKeys groupId nodeId deviceId (some name)

def filterDevice (hiddenKeys : List String) (groupId nodeId : String)
    (device : DeviceFlat) : DeviceFlat :=
  { device with metrics :=
      device.metrics.filter (keepMetric hiddenKeys groupId nodeId (some device.id)) }

def filterNode (hiddenKeys : List String) (groupId : String)
    (node : NodeFlat) : NodeFlat :=
  { node with
    devices := (node.devices.filter (fun device =>
        !shouldFilter hiddenKeys groupId node.id (some device.id) none)).map
      (filterDevice hiddenKeys groupId node.id),
    metrics := node.metrics.filter (keepMetric hiddenKeys groupId node.id (some "")) }

/-- One group through the filter pipeline of the groups resolver
(part_019 lines 396-414): drop hidden nodes, then filter the devices
and metrics of the surviving nodes. -/
def filterGroup (hiddenKeys : List String) (group : GroupFlat) : GroupFlat :=
  let keptNodes := group.nodes.filter (fun node =>
    !shouldFilter hiddenKeys group.id node.id none none)
  { group with nodes := keptNodes.map (filterNode hiddenKeys group.id) }

/-- The whole filter pipeline, ending with the pruning of groups left
with no nodes (part_019 line 415). -/
def filterGroups (hiddenKeys : List String) (groups : List GroupFlat) :
    List GroupFlat :=
  (groups.map (filterGroup hiddenKeys)).filter
    (fun group => group.nodes.length != 0)

/-- Embeds the groups query resolver (part_019 lines 366-417), given
the flattened groups (from memory or the cache hierarchy): when
includeHidden is true, or when there are no hidden keys at all, the
groups are returned unfiltered; otherwise the filter pipeline runs. -/
def groupsResolver (includeHidden : Bool) (items : List HiddenItemRec)
    (groups : List GroupFlat) : List GroupFlat :=
  if includeHidden then groups
  else
    let hiddenKeys := getHiddenItemKeys items
    if hiddenKeys.length == 0 then groups
    else filterGroups hiddenKeys groups

/-! ## Delete cascade (src/unnamed/part_019 delete mutations) -/

/-- In-memory topology as held in host.groups: association lists of
groups, nodes, devices and metric keys.  Metric payloads are not
consulted by the delete mutations and are omitted. -/
structure DeviceT where
  metrics : List String
deriving DecidableEq

structure NodeT where
  metrics : List String
  devices : List (String × DeviceT)
deriving DecidableEq

structure GroupT where
  nodes : List (String × NodeT)
deriving DecidableEq

/-- A row of the history_properties table, reduced to the identity
columns the delete cascade matches on. -/
structure PropRow where
  groupId : String
  nodeId : String
  deviceId : Option String
  metricId : String
  propertyId : String
deriving DecidableEq

/-- A row of the metric_properties table; device_id is non-null with
default empty string. -/
structure MetricPropsRow where
  groupId : String
  nodeId : String
  deviceId : String
  metricId : String
deriving DecidableEq

/-- The state the delete mutations act on: in-memory topology, the hot
cache (connection flag plus the identity keys it holds), the two
time-series tables, hidden_items and metric_properties. -/
structure SysState where
  topology : List (String × GroupT)
  redisConnected : Bool
  redisKeys : List MetricInput
  history : List HistoryRow
  historyProperties : List PropRow
  hiddenItems : List HiddenItemRec
  metricProperties : List MetricPropsRow
deriving DecidableEq

/-- Topology step of deleteNode: remove the node key from its group
when present. -/
def topoDeleteNode (topology : List (String × GroupT)) (groupId nodeId : String) :
    List (String × GroupT) :=
  topology.map (fun g =>
    if g.1 == groupId then
      (g.1, { nodes := g.2.nodes.filter (fun n => n.1 != nodeId) })
    else g)

/-- Topology step of deleteDevice. -/
def topoDeleteDevice (topology : List (String × GroupT))
    (groupId nodeId deviceId : String) : List (String × GroupT) :=
  topology.map (fun g =>
    if g.1 == groupId then
      (g.1, { nodes := g.2.nodes.map (fun n =>
        if n.1 == nodeId then
          (n.1, { n.2 with devices := n.2.devices.filter (fun d => d.1 != deviceId) })
        else n) })
    else g)

/-- Topology step of deleteMetric: a truthy deviceId addresses the
device metric map, otherwise the node metric map. -/
def topoDeleteMetric (topology : List (String × GroupT))
    (groupId nodeId : String) (deviceId : Option String) (metricId : String) :
    List (String × GroupT) :=
  topology.map (fun g =>
    if g.1 == groupId then
      (g.1, { nodes := g.2.nodes.map (fun n =>
        if n.1 == nodeId then
          match deviceId with
          | some d =>
              if d != "" then
                (n.1, { n.2 with devices := n.2.devices.map (fun dv =>
                  if dv.1 == d then
                    (dv.1, { metrics := dv.2.metrics.filter (fun m => m != metricId) })
                  else dv) })
              else (n.1, { n.2 with metrics := n.2.metrics.filter (fun m => m != metricId) })
          | none => (n.1, { n.2 with metrics := n.2.metrics.filter (fun m => m != metricId) })
        else n) })
    else g)

/-- deleteRedisKeysForNode (src/unnamed/part_002 lines 244-269): every
cached key whose identity JSON names this group and node is removed. -/
def redisDeleteNode (keys : List MetricInput) (groupId nodeId : String) :
    List MetricInput :=
  keys.filter (fun k => !(k.groupId == groupId && k.nodeId == nodeId))

/-- deleteRedisKeysForDevice (part_002 lines 275-305). -/
def redisDeleteDevice (keys : List MetricInput) (groupId nodeId deviceId : String) :
    List MetricInput :=
  keys.filter (fun k =>
    !(k.groupId == groupId && k.nodeId == nodeId && k.deviceId == some deviceId))

/-- deleteRedisKeyForMetric (part_002 lines 308-338): the one key whose
identity is (groupId, nodeId, deviceId || null, metricId). -/
def redisDeleteMetric (keys : List MetricInput) (groupId nodeId : String)
    (deviceId : Option String) (metricId : String) : List MetricInput :=
  let dev := normalizeDevice deviceId
  keys.filter (fun k =>
    !(k.groupId == groupId && k.nodeId == nodeId && k.deviceId == dev &&
      k.metricId == metricId))

/-- Modelled from the spec: deleteNodeHistory is imported by the server
schema from ./history.ts, but no variant of that file in the src tree
defines it.  Spec section 4.C8 step (c) describes it as deleting the
matching rows from history_properties then history, the whole step
aborting with an error on a storage failure; the fails flag stands for
such a failure. -/
def deleteNodeHistory (fails : Bool) (hist : List HistoryRow)
    (props : List PropRow) (groupId nodeId : String) :
    Except String (List HistoryRow × List PropRow) :=
  if fails then Except.error "history delete failed"
  else
    Except.ok
      (hist.filter (fun r => !(r.groupId == groupId && r.nodeId == nodeId)),
       props.filter (fun r => !(r.groupId == groupId && r.nodeId == nodeId)))

/-- Modelled from the spec: deleteDeviceHistory, like deleteNodeHistory,
is absent from the src tree; matching is on the (group, node, device)
identity. -/
def deleteDeviceHistory (fails : Bool) (hist : List HistoryRow)
    (props : List PropRow) (groupId nodeId deviceId : String) :
    Except String (List HistoryRow × List PropRow) :=
  if fails then Except.error "history delete failed"
  else
    Except.ok
      (hist.filter (fun r =>
         !(r.groupId == groupId && r.nodeId == nodeId && r.deviceId == some deviceId)),
       props.filter (fun r =>
         !(r.groupId == groupId && r.nodeId == nodeId && r.deviceId == some deviceId)))

/-- Modelled from the spec: deleteMetricHistory, absent from the src
tree; matching is on the full 4-tuple identity (deviceId already
normalised to null when falsy by the caller). -/
def deleteMetricHistory (fails : Bool) (hist : List HistoryRow)
    (props : List PropRow) (groupId nodeId : String) (deviceId : Option String)
    (metricId : String) : Except String (List HistoryRow × List PropRow) :=
  if fails then Except.error "history delete failed"
  else
    Except.ok
      (hist.filter (fun r =>
         !(r.groupId == groupId && r.nodeId == nodeId && r.deviceId == deviceId &&
           r.metricId == metricId)),
       props.filter (fun r =>
         !(r.groupId == groupId && r.nodeId == nodeId && r.deviceId == deviceId &&
           r.metricId == metricId)))

/-- Embeds the deleteNode mutation resolver (part_019 lines 696-730):
(a) remove the node from the in-memory topology, (b) remove its keys
from the hot cache when connected, (c) delete its time-series rows —
on failure return the error with steps (d) and (e) not performed —
(d) delete its hidden_items rows (deleteHiddenItemsForNode, part_014),
(e) delete its metric_properties rows (metric-properties.ts). -/
def deleteNodeResolver (histFails : Bool) (s : SysState)
    (groupId nodeId : String) : Option String × SysState :=
  let s1 := { s with topology := topoDeleteNode s.topology groupId nodeId }
  let s2 :=
    if s1.redisConnected then
      { s1 with redisKeys := redisDeleteNode s1.redisKeys groupId nodeId }
    else s1
  match deleteNodeHistory histFails s2.history s2.historyProperties groupId nodeId with
  | Except.error e => (some e, s2)
  | Except.ok hp =>
      let s3 := { s2 with history := hp.1, historyProperties := hp.2 }
      let s4 := { s3 with hiddenItems := s3.hiddenItems.filter (fun it =>
        !(it.groupId == groupId && it.nodeId == nodeId)) }
      let s5 := { s4 with metricProperties := s4.metricProperties.filter (fun r =>
        !(r.groupId == groupId && r.nodeId == nodeId)) }
      (none, s5)

/-- Embeds the deleteDevice mutation resolver (part_019 lines 732-767);
same shape as deleteNode one level down. -/
def deleteDeviceResolver (histFails : Bool) (s : SysState)
    (groupId nodeId deviceId : String) : Option String × SysState :=
  let s1 := { s with topology := topoDeleteDevice s.topology groupId nodeId deviceId }
  let s2 :=
    if s1.redisConnected then
      { s1 with redisKeys := redisDeleteDevice s1.redisKeys groupId nodeId deviceId }
    else s1
  match deleteDeviceHistory histFails s2.history s2.historyProperties groupId nodeId deviceId with
  | Except.error e => (some e, s2)
  | Except.ok hp =>
      let s3 := { s2 with history := hp.1, historyProperties := hp.2 }
      let s4 := { s3 with hiddenItems := s3.hiddenItems.filter (fun it =>
        !(it.groupId == groupId && it.nodeId == nodeId && it.deviceId == deviceId)) }
      let s5 := { s4 with metricProperties := s4.metricProperties.filter (fun r =>
        !(r.groupId == groupId && r.nodeId == nodeId && r.deviceId == deviceId)) }
      (none, s5)

/-- Embeds the deleteMetric mutation resolver (part_019 lines 769-815):
the optional deviceId is normalised by JavaScript truthiness
(args.deviceId || null); hidden_items matching uses deviceId || ""
(deleteHiddenItemForMetric, part_014) and metric_properties likewise
(deleteMetricPropertiesForMetric). -/
def deleteMetricResolver (histFails : Bool) (s : SysState)
    (groupId nodeId : String) (deviceId : Option String) (metricId : String) :
    Option String × SysState :=
  let dev : Option String := normalizeDevice deviceId
  let s1 := { s with topology := topoDeleteMetric s.topology groupId nodeId deviceId metricId }
  let s2 :=
    if s1.redisConnected then
      { s1 with redisKeys := redisDeleteMetric s1.redisKeys groupId nodeId deviceId metricId }
    else s1
  match deleteMetricHistory histFails s2.history s2.historyProperties groupId nodeId dev metricId with
  | Except.error e => (some e, s2)
  | Except.ok hp =>
      let s3 := { s2 with history := hp.1, historyProperties := hp.2 }
      let s4 := { s3 with hiddenItems := s3.hiddenItems.filter (fun it =>
        !(it.groupId == groupId && it.nodeId == nodeId &&
          it.deviceId == dev.getD "" && it.metricId == metricId)) }
      let s5 := { s4 with metricProperties := s4.metricProperties.filter (fun r =>
        !(r.groupId == groupId && r.nodeId == nodeId &&
          r.deviceId == dev.getD "" && r.metricId == metricId)) }
      (none, s5)

/-! ## Concrete instances used by the closed corollaries below -/

/-- A stored float sample strictly before the window used below. -/
def rowBefore : HistoryRow :=
  { groupId := "G", nodeId := "N", deviceId := some "D", metricId := "M",
    intValue := none, floatValue := some 10, stringValue := none,
    boolValue := none, timestamp := 1000 }

/-- A boolean sample inside the window used below. -/
def rowBool : HistoryRow :=
  { groupId := "G", nodeId := "N", deviceId := some "D", metricId := "M",
    intValue := none, floatValue := none, stringValue := none,
    boolValue := some true, timestamp := 4000 }

/-- A float sample inside the window used below. -/
def rowFloat : HistoryRow :=
  { groupId := "G", nodeId := "N", deviceId := some "D", metricId := "M",
    intValue := none, floatValue := some 7, stringValue := none,
    boolValue := none, timestamp := 4000 }

/-- The identity requested in the concrete queries below. -/
def reqM : MetricInput :=
  { groupId := "G", nodeId := "N", deviceId := some "D", metricId := "M" }

/-- An Int32 metric whose value is null. -/
def nullIntMetric : SpMetric :=
  { name := some "M", type := "Int32", value := none, timestamp := some 5 }

/-- A Boolean metric carrying the value true. -/
def boolMetric : SpMetric :=
  { name := some "M", type := "Boolean", value := some (JsValue.boolean true),
    timestamp := some 5 }

/-- The history record that recording boolMetric produces. -/
def boolMetricRecord : HistoryRecord :=
  { groupId := "G", nodeId := "N", deviceId := some "D", metricId := "M",
    timestamp := 5000, intValue := none, floatValue := none,
    stringValue := none, boolValue := some (JsValue.boolean true) }

/-- An enabled above-100 rule with a 30 s delay. -/
def ruleEnabled : AlarmRule :=
  { id := "r1", groupId := "G", nodeId := "N", deviceId := "",
    metricId := "M", name := "High", ruleType := "above",
    threshold := some 100, delaySec := 30, enabled := true }

/-- The same rule, disabled. -/
def ruleOff : AlarmRule :=
  { ruleEnabled with id := "r2", enabled := false }

/-- A pending alarm_state row whose condition was met at t = 0. -/
def pendingRow (rid : String) : AlarmStateRow :=
  { ruleId := rid, state := "pending", conditionMetAt := some 0,
    activatedAt := none, lastNotifiedAt := none, lastValue := some "150",
    updatedAt := 0 }

/-- An active alarm_state row. -/
def activeRow (rid : String) : AlarmStateRow :=
  { ruleId := rid, state := "active", conditionMetAt := some 0,
    activatedAt := some 1, lastNotifiedAt := none, lastValue := some "150",
    updatedAt := 1 }

/-- Database with one disabled rule stuck in pending. -/
def dbDisabledPending : AlarmDb :=
  { rules := [ruleOff], states := [pendingRow "r2"], history := [] }

/-- Database with one enabled rule in pending. -/
def dbEnabledPending : AlarmDb :=
  { rules := [ruleEnabled], states := [pendingRow "r1"], history := [] }

/-- Database with one enabled rule in active state. -/
def dbActive : AlarmDb :=
  { rules := [ruleEnabled], states := [activeRow "r1"], history := [] }

/-- A one-group topology with one empty group, as left behind when the
last node of a group is deleted. -/
def emptyGroup : GroupFlat := { id := "G", nodes := [] }

/-- A topology with one named metric under a device, used to exercise
the hidden cascade. -/
def sampleGroups : List GroupFlat :=
  [{ id := "G",
     nodes := [{ id := "N1",
                 devices := [{ id := "D1", metrics := [{ name := some "M1" }] }],
                 metrics := [{ name := some "M0" }] },
               { id := "N2", devices := [], metrics := [] }] }]

/-- A hidden-item row hiding node (G, N1). -/
def hideNodeItem : HiddenItemRec :=
  { groupId := "G", nodeId := "N1", deviceId := "", metricId := "",
    hiddenAt := 0 }

/-! ## Theorems -/

lemma getValueType_cases (t : String) :
    getValueType t = "intValue" ∨ getValueType t = "floatValue" ∨
      getValueType t = "boolValue" ∨ getValueType t = "stringValue" := by
  unfold getValueType
  repeat' split
  all_goals simp

lemma recordForMetric_eq_some {g n : String} {dev : Option String}
    {pts : Option Int} {m : SpMetric} {rec : HistoryRecord}
    (h : recordForMetric g n dev pts m = some rec) :
    rec.intValue = (if getValueType m.type == "intValue" then m.value else none) ∧
    rec.floatValue = (if getValueType m.type == "floatValue" then m.value else none) ∧
    rec.stringValue =
      (if getValueType m.type == "stringValue" then some (jsTemplate m.value) else none) ∧
    rec.boolValue = (if getValueType m.type == "boolValue" then m.value else none) := by
  unfold recordForMetric at h
  cases hname : m.name with
  | none =>
    simp only [hname] at h
    exact absurd h (by simp)
  | some name =>
    cases hts : calcTimestampV1 (jsOrTimestamp m.timestamp pts) with
    | none =>
      simp only [hname, hts] at h
      exact absurd h (by simp)
    | some ts =>
      simp only [hname, hts] at h
      by_cases hempty : (name == "") = true
      · rw [if_pos hempty] at h
        exact absurd h (by simp)
      · rw [if_neg hempty] at h
        injection h with h
        subst h
        exact ⟨rfl, rfl, rfl, rfl⟩

/-- Claim C5 (corrected): for every history record constructed by
recordValues from a metric whose value is non-null, exactly one of the
four value columns is non-null, and which one is determined by the
case-insensitive routing of getValueType; the string column is filled
exactly when the type routes to string regardless of the value, while a
null value with an int / float / boolean type leaves its routed column
null as well. -/
theorem recordValues_column_routing :
    ∀ (g n : String) (dev : Option String) (pts : Option Int)
      (ms : List SpMetric), ∀ rec ∈ recordValues g n dev pts ms,
      ∃ m ∈ ms,
        rec.intValue.isSome = ((getValueType m.type == "intValue") && m.value.isSome) ∧
        rec.floatValue.isSome = ((getValueType m.type == "floatValue") && m.value.isSome) ∧
        rec.boolValue.isSome = ((getValueType m.type == "boolValue") && m.value.isSome) ∧
        rec.stringValue.isSome = (getValueType m.type == "stringValue") ∧
        (m.value.isSome = true → rec.someCount = 1) := by
  intro g n dev pts ms rec hrec
  rw [recordValues, List.mem_filterMap] at hrec
  obtain ⟨m, hm, hsome⟩ := hrec
  refine ⟨m, hm, ?_⟩
  obtain ⟨hi, hf, hs, hb⟩ := recordForMetric_eq_some hsome
  rcases getValueType_cases m.type with hgv | hgv | hgv | hgv <;>
      rw [hgv] at hi hf hs hb <;> simp only [hgv] <;>
      simp at hi hf hs hb <;>
      refine ⟨by simp [hi], by simp [hf], by simp [hb], by simp [hs], ?_⟩ <;>
      intro hv <;>
      simp [HistoryRecord.someCount, hi, hf, hs, hb, hv]

/-- Claim C5 counterexample: a metric of type Int32 whose value is null
passes the recording guard (it has a name and a timestamp), and the
record it produces has all four value columns null — not exactly one. -/
theorem recordValues_null_value_counterexample :
    (recordValues "G" "N" (some "D") (some 5) [nullIntMetric]).map
        HistoryRecord.someCount = [0] ∧
    getValueType nullIntMetric.type = "intValue" := by
  constructor <;> decide

/-- Claim C5 witness: a Boolean metric with value true yields a record
with exactly one non-null column. -/
theorem recordValues_column_routing_witness :
    ∃ rec ∈ recordValues "G" "N" (some "D") (some 5) [boolMetric],
      rec.someCount = 1 := by
  have hmem : boolMetricRecord ∈
      recordValues "G" "N" (some "D") (some 5) [boolMetric] := by decide
  obtain ⟨m, hm, _, _, _, _, hone⟩ :=
    recordValues_column_routing "G" "N" (some "D") (some 5) [boolMetric] _ hmem
  rw [List.mem_singleton] at hm
  subst hm
  exact ⟨_, hmem, hone (by decide)⟩

/-- Claim C7 (corrected): the automatically chosen bucket interval is
floor((end-start)/(1000*samples)) seconds with no 1-second minimum: it
coincides with the max(1, _) formula of the spec exactly when the
window is at least 1000*samples ms long, and samples = 0 produces an
ill-defined (infinite) interval rather than a 1 s one. -/
theorem autoInterval_vs_spec_formula :
    (∀ s e smp : Int, 0 < smp →
      (autoIntervalSeconds s e (some smp) =
          some (specAutoIntervalSeconds s e (some smp)) ↔ 1000 * smp ≤ e - s)) ∧
    (∀ s e : Int, autoIntervalSeconds s e (some 0) = none) := by
  constructor
  · intro s e smp h
    have hb : (0:Int) < 1000 * smp := by positivity
    simp only [autoIntervalSeconds, specAutoIntervalSeconds, Option.getD_some]
    rw [if_neg (by omega : ¬ smp = 0)]
    rw [Int.fdiv_eq_ediv _ hb.le, Option.some_inj, eq_comm, max_eq_right_iff,
      Int.le_ediv_iff_mul_le hb, one_mul]
  · intro s e
    simp [autoIntervalSeconds]

/-- Claim C7 counterexample: for a 500 ms window with the default 100
samples, the source computes a 0-second auto interval where the claim
requires max(1, 0) = 1. -/
theorem autoInterval_no_minimum_counterexample :
    autoIntervalSeconds 0 500 none = some 0 ∧
    specAutoIntervalSeconds 0 500 none = 1 ∧ (0 : Int) ≠ 1 := by
  refine ⟨by decide, by decide, by decide⟩

/-- Claim C7 witness: with samples = 1 over a 1000 ms window the source
formula and the spec formula agree (both give 1 s). -/
theorem autoInterval_vs_spec_formula_witness :
    0 < (1 : Int) ∧
    autoIntervalSeconds 0 1000 (some 1) =
      some (specAutoIntervalSeconds 0 1000 (some 1)) := by
  refine ⟨by decide, ?_⟩
  exact (autoInterval_vs_spec_formula.1 0 1000 1 (by decide)).mpr (by decide)

/-- Claim C8 (code bug in the variant at src/history.ts lines 49-60):
at the millisecond-scale input 1700000000000 that variant multiplies by
1000 regardless, yielding 1700000000000000, while the variant at lines
429-446 — which the claim and the spec describe — keeps the value
unchanged. -/
theorem calcTimestamp_variants_divergence :
    calcTimestampV1 (some 1700000000000) = some 1700000000000000 ∧
    calcTimestamp (some 1700000000000) = some 1700000000000 := by
  constructor <;> decide

lemma mem_of_mem_inWindowRows {rows : List HistoryRow}
    {metrics : List MetricInput} {s e : Int} {r : HistoryRow}
    (h : r ∈ inWindowRows rows metrics s e) :
    r ∈ rows ∧ rowMatches metrics r = true ∧ s ≤ r.timestamp ∧
      r.timestamp ≤ e := by
  rw [inWindowRows, List.mem_filter] at h
  obtain ⟨h1, h2⟩ := h
  simp only [Bool.and_eq_true, decide_eq_true_eq] at h2
  exact ⟨h1, h2.1.1, h2.1.2, h2.2⟩

lemma seriesPoint_some {inWin : List HistoryRow} {timeOf : Int → Int}
    {key : String} {t : Int} {pt : Int × Rat}
    (h : seriesPoint inWin timeOf key t = some pt) :
    pt.1 = t ∧
    (∃ r ∈ inWin, timeOf r.timestamp = t ∧ rowName r = key) ∧
    ((inWin.filter (fun r => timeOf r.timestamp == t && rowName r == key)).filterMap
        (fun r => r.floatValue)) ≠ [] ∧
    pt.2 = ratAvg
      ((inWin.filter (fun r => timeOf r.timestamp == t && rowName r == key)).filterMap
        (fun r => r.floatValue)) := by
  unfold seriesPoint at h
  simp only [] at h
  split at h
  · exact absurd h (by simp)
  · split at h
    · exact absurd h (by simp)
    · rename_i hgrp hvals
      injection h with h
      subst h
      refine ⟨rfl, ?_, by simpa using hvals, rfl⟩
      have hne : inWin.filter (fun r => timeOf r.timestamp == t && rowName r == key) ≠ [] := by
        simpa [List.isEmpty_iff] using hgrp
      obtain ⟨r, hr⟩ := List.exists_mem_of_ne_nil _ hne
      rw [List.mem_filter] at hr
      obtain ⟨hr1, hr2⟩ := hr
      simp only [Bool.and_eq_true, beq_iff_eq] at hr2
      exact ⟨r, hr1, hr2.1, hr2.2⟩

lemma mem_seriesFor {inWin : List HistoryRow} {timeOf : Int → Int}
    {m : MetricInput} {pt : Int × Rat} (h : pt ∈ seriesFor inWin timeOf m) :
    (∃ r ∈ inWin, timeOf r.timestamp = pt.1 ∧ rowName r = inputKey m) ∧
    ((inWin.filter (fun r => timeOf r.timestamp == pt.1 && rowName r == inputKey m)).filterMap
        (fun r => r.floatValue)) ≠ [] ∧
    pt.2 = ratAvg
      ((inWin.filter (fun r => timeOf r.timestamp == pt.1 && rowName r == inputKey m)).filterMap
        (fun r => r.floatValue)) := by
  rw [seriesFor, List.mem_filterMap] at h
  obtain ⟨t, _, hsp⟩ := h
  obtain ⟨h1, h2, h3, h4⟩ := seriesPoint_some hsp
  subst h1
  exact ⟨h2, h3, h4⟩

lemma getHistory_ok_mem {rows : List HistoryRow} {metrics : List MetricInput}
    {s e : Int} {interval samples : Option Int} {raw : Option Bool}
    {out : List (MetricInput × List (Int × Rat))}
    (h : getHistory rows metrics s e interval samples raw = Except.ok out)
    {p : MetricInput × List (Int × Rat)} (hp : p ∈ out) :
    ∃ nm ∈ metrics.map normalizeInput, p.1 = nm ∧
      ((raw = none ∧
          p.2 = seriesFor (inWindowRows rows metrics s e) id nm) ∨
       (∃ w, raw ≠ none ∧ 0 < w ∧
          interval.orElse (fun _ => autoIntervalSeconds s e samples) = some w ∧
          p.2 = seriesFor (inWindowRows rows metrics s e) (timeBucket w) nm)) := by
  cases raw with
  | none =>
    unfold getHistory at h
    simp only [Except.ok.injEq] at h
    subst h
    rw [List.mem_map] at hp
    obtain ⟨nm, hnm, hpair⟩ := hp
    exact ⟨nm, hnm, by rw [← hpair], Or.inl ⟨rfl, by rw [← hpair]⟩⟩
  | some b =>
    unfold getHistory at h
    cases horelse : interval.orElse (fun _ => autoIntervalSeconds s e samples) with
    | none =>
      simp only [horelse] at h
      exact absurd h (by simp)
    | some w =>
      simp only [horelse] at h
      by_cases hw : 0 < w
      · rw [if_pos hw] at h
        simp only [Except.ok.injEq] at h
        subst h
        rw [List.mem_map] at hp
        obtain ⟨nm, hnm, hpair⟩ := hp
        exact ⟨nm, hnm, by rw [← hpair],
          Or.inr ⟨w, by simp, hw, rfl, by rw [← hpair]⟩⟩
      · rw [if_neg hw] at h
        exact absurd h (by simp)

/-- Claim C1 (corrected): getHistory performs no left-edge fill — it
never synthesises a point at the window start from the most recent
sample before the window.  Every returned point is derived from a
stored row whose timestamp lies inside [start, end]; when raw is null
the reported timestamp is that row timestamp (hence inside the window),
and otherwise it is the epoch-anchored bucket floor of that row
timestamp, which can precede start. -/
theorem getHistory_no_left_edge_fill :
    ∀ (rows : List HistoryRow) (metrics : List MetricInput) (s e : Int)
      (interval samples : Option Int) (raw : Option Bool) out,
      getHistory rows metrics s e interval samples raw = Except.ok out →
      ∀ p ∈ out, ∀ q ∈ p.2,
        ∃ r ∈ rows, rowMatches metrics r = true ∧ s ≤ r.timestamp ∧
          r.timestamp ≤ e ∧
          ((raw = none ∧ q.1 = r.timestamp) ∨
           (∃ w, raw ≠ none ∧
              interval.orElse (fun _ => autoIntervalSeconds s e samples) = some w ∧
              q.1 = timeBucket w r.timestamp)) := by
  intro rows metrics s e interval samples raw out h p hp q hq
  obtain ⟨nm, hnm, hp1, hcase⟩ := getHistory_ok_mem h hp
  rcases hcase with ⟨hraw, hser⟩ | ⟨w, hraw, hw, horelse, hser⟩
  · rw [hser] at hq
    obtain ⟨⟨r, hr, hts, _⟩, _, _⟩ := mem_seriesFor hq
    obtain ⟨hrows, hmatch, h1, h2⟩ := mem_of_mem_inWindowRows hr
    exact ⟨r, hrows, hmatch, h1, h2, Or.inl ⟨hraw, hts.symm⟩⟩
  · rw [hser] at hq
    obtain ⟨⟨r, hr, hts, _⟩, _, _⟩ := mem_seriesFor hq
    obtain ⟨hrows, hmatch, h1, h2⟩ := mem_of_mem_inWindowRows hr
    exact ⟨r, hrows, hmatch, h1, h2, Or.inr ⟨w, hraw, horelse, hts.symm⟩⟩

/-- Claim C1 counterexample: with a stored sample at t = 1000, window
[3000, 6000] and raw = false, the query returns an empty series — no
point at t = 3000 carrying value 10 is synthesised, although a sample
exists strictly before the window start and none falls at it. -/
theorem getHistory_left_edge_counterexample :
    getHistory [rowBefore] [reqM] 3000 6000 (some 10) none (some false) =
      Except.ok [(reqM, [])] ∧
    rowMatchesInput rowBefore reqM = true ∧ rowBefore.timestamp < 3000 ∧
    (∀ r ∈ [rowBefore], r.timestamp ≠ 3000) := by
  refine ⟨by rfl, by decide, by decide, by decide⟩

/-- Claim C1 witness: a raw-time query over one in-window sample, with
the conclusion of the no-left-edge-fill theorem instantiated there. -/
theorem getHistory_no_left_edge_fill_witness :
    ∃ r ∈ [rowFloat], rowMatches [reqM] r = true ∧ (3000 : Int) ≤ r.timestamp ∧
      r.timestamp ≤ 6000 ∧
      (((none : Option Bool) = none ∧ (4000 : Int) = r.timestamp) ∨
       (∃ w, (none : Option Bool) ≠ none ∧
          (some 10).orElse (fun _ => autoIntervalSeconds 3000 6000 none) = some w ∧
          (4000 : Int) = timeBucket w r.timestamp)) := by
  have h : getHistory [rowFloat] [reqM] 3000 6000 (some 10) none none =
      Except.ok [(reqM, [(4000, ratAvg [7])])] := by rfl
  exact getHistory_no_left_edge_fill [rowFloat] [reqM] 3000 6000 (some 10)
    none none _ h _ (List.mem_singleton.mpr rfl) _ (List.mem_singleton.mpr rfl)

/-- Claim C6 (corrected): the value a successful getHistory reports for
any (time, identity) pair is AVG("float_value") over a group of
matching in-window rows — the int and bool columns never contribute (a
group whose rows carry only int or bool values produces no point at
all); and raw stored timestamps are only reported when the raw argument
is null, since the source tests raw == null, so raw = true still
buckets. -/
theorem getHistory_float_avg_only :
    ∀ (rows : List HistoryRow) (metrics : List MetricInput) (s e : Int)
      (interval samples : Option Int) (raw : Option Bool) out,
      getHistory rows metrics s e interval samples raw = Except.ok out →
      ∀ p ∈ out, ∀ q ∈ p.2,
        ∃ grp : List HistoryRow,
          (∀ r ∈ grp, r ∈ rows ∧ rowMatches metrics r = true ∧
            s ≤ r.timestamp ∧ r.timestamp ≤ e ∧ rowName r = inputKey p.1) ∧
          grp.filterMap (fun r => r.floatValue) ≠ [] ∧
          q.2 = ratAvg (grp.filterMap (fun r => r.floatValue)) := by
  intro rows metrics s e interval samples raw out h p hp q hq
  obtain ⟨nm, hnm, hp1, hcase⟩ := getHistory_ok_mem h hp
  rcases hcase with ⟨hraw, hser⟩ | ⟨w, hraw, hw, horelse, hser⟩ <;>
    rw [hser] at hq <;>
    obtain ⟨-, hne, havg⟩ := mem_seriesFor hq <;>
    refine ⟨_, ?_, hne, havg⟩ <;>
    intro r hr <;>
    rw [List.mem_filter] at hr <;>
    obtain ⟨hin, hcond⟩ := hr <;>
    obtain ⟨hrows, hmatch, h1, h2⟩ := mem_of_mem_inWindowRows hin <;>
    simp only [Bool.and_eq_true, beq_iff_eq] at hcond <;>
    exact ⟨hrows, hmatch, h1, h2, by rw [hp1]; exact hcond.2⟩

/-- Claim C6 counterexample: a boolean sample true inside the window
contributes nothing — the bucket is dropped entirely (AVG over only
null float values), where the claim expects the bucket average of
COALESCE(float, int::real, bool::real) = 1; and with raw = true the
returned timestamp is the bucket floor 0, not the raw timestamp
4000. -/
theorem getHistory_aggregate_counterexample :
    getHistory [rowBool] [reqM] 3000 6000 (some 10) none (some false) =
      Except.ok [(reqM, [])] ∧
    [rowBool].filterMap specCoalesceValue = [1] ∧
    rowBool.timestamp = 4000 ∧ ((3000 : Int) ≤ 4000 ∧ (4000 : Int) ≤ 6000) ∧
    (getHistory [rowFloat] [reqM] 3000 6000 (some 10) none (some true)).toOption.map
        (fun l => l.map (fun pr => pr.2.map Prod.fst)) = some [[0]] ∧
    rowFloat.timestamp = 4000 := by
  refine ⟨by rfl, by decide, by decide, by decide, by decide, by decide⟩

/-- Claim C6 witness: the bucketed value over one float sample equals
the average of its float group, by the float-average theorem applied at
a concrete query. -/
theorem getHistory_float_avg_only_witness :
    ∃ grp : List HistoryRow,
      (∀ r ∈ grp, r ∈ [rowFloat] ∧ rowMatches [reqM] r = true ∧
        (3000 : Int) ≤ r.timestamp ∧ r.timestamp ≤ 6000 ∧
        rowName r = inputKey reqM) ∧
      grp.filterMap (fun r => r.floatValue) ≠ [] ∧
      ratAvg [7] = ratAvg (grp.filterMap (fun r => r.floatValue)) := by
  have h : getHistory [rowFloat] [reqM] 3000 6000 (some 10) none (some true) =
      Except.ok [(reqM, [(0, ratAvg [7])])] := by rfl
  exact getHistory_float_avg_only [rowFloat] [reqM] 3000 6000 (some 10) none
    (some true) _ h _ (List.mem_singleton.mpr rfl) _ (List.mem_singleton.mpr rfl)

lemma findState_some {states : List AlarmStateRow} {rid : String}
    {r : AlarmStateRow} (h : findState states rid = some r) : r.ruleId = rid := by
  unfold findState at h
  have h2 := List.find?_some h
  simpa [beq_iff_eq] using h2

lemma findRule_some {rules : List AlarmRule} {rid : String} {r : AlarmRule}
    (h : findRule rules rid = some r) : r.id = rid := by
  unfold findRule at h
  have h2 := List.find?_some h
  simpa [beq_iff_eq] using h2

lemma findState_map_if {states : List AlarmStateRow} (tid rid : String)
    (f : AlarmStateRow → AlarmStateRow) (hf : ∀ r, (f r).ruleId = r.ruleId) :
    findState (states.map (fun r => if r.ruleId == tid then f r else r)) rid =
      (findState states rid).map (fun r => if r.ruleId == tid then f r else r) := by
  induction states with
  | nil => rfl
  | cons a l ih =>
    have hbr : (if a.ruleId == tid then f a else a).ruleId = a.ruleId := by
      split
      · exact hf a
      · rfl
    unfold findState at *
    simp only [List.map_cons]
    by_cases hard : a.ruleId = rid
    · rw [List.find?_cons_of_pos _ (by rw [hbr, hard]; exact beq_self_eq_true rid),
        List.find?_cons_of_pos _ (by rw [hard]; exact beq_self_eq_true rid)]
      rfl
    · rw [List.find?_cons_of_neg _ (by simp only [hbr]; simp [hard]),
        List.find?_cons_of_neg _ (by simp [hard])]
      exact ih

lemma applyStateUpdate_ruleId (toS : String) (v : Option String) (now : Int)
    (r : AlarmStateRow) : (applyStateUpdate toS v now r).ruleId = r.ruleId := by
  unfold applyStateUpdate
  repeat' split
  all_goals rfl

lemma applyStateUpdate_state (toS : String) (v : Option String) (now : Int)
    (r : AlarmStateRow) : (applyStateUpdate toS v now r).state = toS := by
  unfold applyStateUpdate
  repeat' split
  all_goals rfl

/-- Claim C3 (confirmed): every state change of the engine updates the
alarm_state row with the right timestamps (condition_met_at on entry to
pending, activated_at on entry to active, both cleared on normal),
appends exactly one alarm_history row recording (from, to, value,
timestamp), publishes one transition event on alarmStateChange, and
fires the webhook exactly when the target is active or a non-normal
state returns to normal.  Sample-driven transitions and timer firings
go through transitionState (first conjunct); acknowledgement has its
own path (second conjunct), whose history append and publish require
the rule row, guaranteed by the FK from alarm_state to alarm_rules. -/
theorem alarm_transition_durability :
    (∀ (db : AlarmDb) (rule : AlarmRule) (fromS toS : String)
      (value : Option String) (now : Int) (hid : String)
      (desc : Option String) (st : AlarmStateRow),
      findState db.states rule.id = some st →
      let r := transitionState db rule fromS toS value now hid desc
      ∃ st2, findState r.1.states rule.id = some st2 ∧
        st2.state = toS ∧
        (toS = "pending" → st2.conditionMetAt = some now) ∧
        (toS = "active" → st2.activatedAt = some now) ∧
        (toS = "normal" → st2.conditionMetAt = none ∧ st2.activatedAt = none) ∧
        r.1.history = db.history ++
          [{ id := hid, ruleId := rule.id, fromState := fromS, toState := toS,
             value := value, timestamp := now }] ∧
        (∃ tr, r.2.published = [tr] ∧ tr.ruleId = rule.id ∧
          tr.fromState = fromS ∧ tr.toState = toS ∧ tr.value = value ∧
          tr.timestamp = now) ∧
        (r.2.webhooks ≠ [] ↔
          (toS = "active" ∨ (fromS ≠ "normal" ∧ toS = "normal")))) ∧
    (∀ (db : AlarmDb) (ruleId : String) (now : Int) (hid : String)
      (desc : Option String) (st : AlarmStateRow) (rule : AlarmRule),
      findState db.states ruleId = some st → st.state = "active" →
      findRule db.rules ruleId = some rule →
      let a := acknowledgeAlarm db ruleId now hid desc
      ∃ st2, findState a.2.1.states ruleId = some st2 ∧
        st2.state = "acknowledged" ∧
        a.2.1.history = db.history ++
          [{ id := hid, ruleId := ruleId, fromState := "active",
             toState := "acknowledged", value := st.lastValue,
             timestamp := now }] ∧
        (∃ tr, a.2.2.published = [tr] ∧ tr.ruleId = ruleId ∧
          tr.fromState = "active" ∧ tr.toState = "acknowledged" ∧
          tr.value = st.lastValue ∧ tr.timestamp = now) ∧
        a.2.2.webhooks = []) := by
  constructor
  · intro db rule fromS toS value now hid desc st hst
    refine ⟨applyStateUpdate toS value now st, ?_, applyStateUpdate_state _ _ _ _,
      ?_, ?_, ?_, rfl,
      ⟨{ ruleId := rule.id, ruleName := rule.name, fromState := fromS,
         toState := toS,
         metricPath := metricPath rule.groupId rule.nodeId rule.deviceId rule.metricId,
         metricDescription := desc, value := value, ruleType := rule.ruleType,
         threshold := rule.threshold, timestamp := now },
        rfl, rfl, rfl, rfl, rfl, rfl⟩, ?_⟩
    · show findState (db.states.map (fun r =>
        if r.ruleId == rule.id then applyStateUpdate toS value now r else r))
          rule.id = _
      rw [findState_map_if rule.id rule.id _ (applyStateUpdate_ruleId toS value now),
        hst]
      simp [findState_some hst]
    · intro h
      subst h
      rfl
    · intro h
      subst h
      rfl
    · intro h
      subst h
      exact ⟨rfl, rfl⟩
    · show (if (toS == "active" || (toS == "normal" && fromS != "normal")) = true
          then _ else ([] : List AlarmTransition)) ≠ [] ↔ _
      by_cases hc : (toS == "active" || (toS == "normal" && fromS != "normal")) = true
      · rw [if_pos hc]
        simp only [Bool.or_eq_true, beq_iff_eq, Bool.and_eq_true, bne_iff_ne] at hc
        simp only [ne_eq, List.cons_ne_nil, not_false_eq_true, true_iff]
        rcases hc with h | ⟨h1, h2⟩
        · exact Or.inl h
        · exact Or.inr ⟨h2, h1⟩
      · rw [if_neg hc]
        simp only [Bool.or_eq_true, beq_iff_eq, Bool.and_eq_true, bne_iff_ne] at hc
        push_neg at hc
        simp only [ne_eq, not_true_eq_false, false_iff]
        push_neg
        exact ⟨hc.1, fun h1 h2 => absurd (hc.2 h2) h1⟩
  · intro db ruleId now hid desc st rule hst hact hrule
    have hne : (st.state != "active") = false := by simp [hact]
    refine ⟨{ st with state := "acknowledged", updatedAt := now }, ?_, rfl, ?_, ?_, ?_⟩
    · show findState (acknowledgeAlarm db ruleId now hid desc).2.1.states ruleId = _
      unfold acknowledgeAlarm
      simp only [hst, hne, Bool.false_eq_true, if_false, hrule]
      rw [findState_map_if ruleId ruleId
        (fun r => { r with state := "acknowledged", updatedAt := now })
        (fun r => rfl), hst]
      simp [findState_some hst]
    · show (acknowledgeAlarm db ruleId now hid desc).2.1.history = _
      unfold acknowledgeAlarm
      simp only [hst, hne, Bool.false_eq_true, if_false, hrule]
    · refine
        ⟨{ ruleId := ruleId, ruleName := rule.name, fromState := "active",
           toState := "acknowledged",
           metricPath := metricPath rule.groupId rule.nodeId rule.deviceId rule.metricId,
           metricDescription := desc, value := st.lastValue,
           ruleType := rule.ruleType, threshold := rule.threshold,
           timestamp := now },
         ?_, rfl, rfl, rfl, rfl, rfl⟩
      show (acknowledgeAlarm db ruleId now hid desc).2.2.published = _
      unfold acknowledgeAlarm
      simp only [hst, hne, Bool.false_eq_true, if_false, hrule]
    · show (acknowledgeAlarm db ruleId now hid desc).2.2.webhooks = []
      unfold acknowledgeAlarm
      simp only [hst, hne, Bool.false_eq_true, if_false, hrule]

/-- Claim C3 witness: the durability theorem instantiated on a concrete
database, for a clearing transition and for an acknowledgement. -/
theorem alarm_transition_durability_witness :
    (∃ st2, findState (transitionState dbActive ruleEnabled "active" "normal"
        (some "50") 9 "h1" none).1.states "r1" = some st2 ∧
      st2.state = "normal") ∧
    (∃ st2, findState (acknowledgeAlarm dbActive "r1" 9 "h2" none).2.1.states
        "r1" = some st2 ∧ st2.state = "acknowledged") := by
  constructor
  · obtain ⟨st2, h1, h2, -⟩ := alarm_transition_durability.1 dbActive ruleEnabled
      "active" "normal" (some "50") 9 "h1" none (activeRow "r1") (by decide)
    exact ⟨st2, h1, h2⟩
  · obtain ⟨st2, h1, h2, -⟩ := alarm_transition_durability.2 dbActive "r1" 9 "h2"
      none (activeRow "r1") ruleEnabled (by decide) (by decide) (by decide)
    exact ⟨st2, h1, h2⟩

/-- Claim C4 (confirmed): acknowledgeAlarm succeeds exactly when a
state row exists for the rule and its state is active, in which case
the row moves to acknowledged; with no state row, or in any state other
than active, it returns a failure carrying a descriptive message and
returns the database and effects completely unchanged. -/
theorem acknowledgeAlarm_only_active :
    ∀ (db : AlarmDb) (ruleId : String) (now : Int) (hid : String)
      (desc : Option String),
      (findState db.states ruleId = none →
        acknowledgeAlarm db ruleId now hid desc =
          (Except.error ("Alarm state for rule " ++ ruleId ++ " not found"),
            db, emptyEffects)) ∧
      (∀ st, findState db.states ruleId = some st → st.state ≠ "active" →
        acknowledgeAlarm db ruleId now hid desc =
          (Except.error ("Cannot acknowledge alarm in state \"" ++ st.state ++
            "\" — must be \"active\""), db, emptyEffects)) ∧
      (∀ st, findState db.states ruleId = some st → st.state = "active" →
        (∃ row, (acknowledgeAlarm db ruleId now hid desc).1 = Except.ok row ∧
          row.state = "acknowledged") ∧
        (∃ st2, findState (acknowledgeAlarm db ruleId now hid desc).2.1.states
            ruleId = some st2 ∧ st2.state = "acknowledged")) := by
  intro db ruleId now hid desc
  refine ⟨?_, ?_, ?_⟩
  · intro h
    unfold acknowledgeAlarm
    simp only [h]
  · intro st hst hne
    have hb : (st.state != "active") = true := by simp [hne]
    unfold acknowledgeAlarm
    simp only [hst, hb, if_true]
  · intro st hst hact
    have hne : (st.state != "active") = false := by simp [hact]
    have hfind : findState ((acknowledgeAlarm db ruleId now hid desc).2.1.states)
        ruleId = some { st with state := "acknowledged", updatedAt := now } := by
      unfold acknowledgeAlarm
      cases hrule : findRule db.rules ruleId with
      | none =>
        simp only [hst, hne, Bool.false_eq_true, if_false, hrule]
        rw [findState_map_if ruleId ruleId
          (fun r => { r with state := "acknowledged", updatedAt := now })
          (fun r => rfl), hst]
        simp [findState_some hst]
      | some rule =>
        simp only [hst, hne, Bool.false_eq_true, if_false, hrule]
        rw [findState_map_if ruleId ruleId
          (fun r => { r with state := "acknowledged", updatedAt := now })
          (fun r => rfl), hst]
        simp [findState_some hst]
    refine ⟨?_, ⟨_, hfind, rfl⟩⟩
    unfold acknowledgeAlarm
    cases hrule : findRule db.rules ruleId with
    | none =>
      simp only [hst, hne, Bool.false_eq_true, if_false, hrule]
      exact ⟨_, rfl, rfl⟩
    | some rule =>
      simp only [hst, hne, Bool.false_eq_true, if_false, hrule]
      exact ⟨_, rfl, rfl⟩

/-- Claim C4 witness: acknowledging the active rule of dbActive
succeeds, while acknowledging the pending rule of dbEnabledPending
fails with the descriptive message and leaves everything unchanged. -/
theorem acknowledgeAlarm_only_active_witness :
    (∃ row, (acknowledgeAlarm dbActive "r1" 7 "h1" none).1 = Except.ok row ∧
      row.state = "acknowledged") ∧
    acknowledgeAlarm dbEnabledPending "r1" 7 "h1" none =
      (Except.error
        ("Cannot acknowledge alarm in state \"pending\" — must be \"active\""),
        dbEnabledPending, emptyEffects) := by
  constructor
  · exact ((acknowledgeAlarm_only_active dbActive "r1" 7 "h1" none).2.2
      (activeRow "r1") (by decide) (by decide)).1
  · exact (acknowledgeAlarm_only_active dbEnabledPending "r1" 7 "h1" none).2.1
      (pendingRow "r1") (by decide) (by decide)

lemma findState_map_if_ne {states : List AlarmStateRow} {tid rid : String}
    (f : AlarmStateRow → AlarmStateRow) (hf : ∀ r, (f r).ruleId = r.ruleId)
    (hne : tid ≠ rid) :
    findState (states.map (fun r => if r.ruleId == tid then f r else r)) rid =
      findState states rid := by
  rw [findState_map_if tid rid f hf]
  cases hfs : findState states rid with
  | none => rfl
  | some r =>
    have := findState_some hfs
    simp [this, Ne.symm hne]

lemma initStep_rules (now : Int) (acc : AlarmDb × AlarmEffects)
    (st : AlarmStateRow) : (initStep now acc st).1.rules = acc.1.rules := by
  cases hr : findRule acc.1.rules st.ruleId with
  | none => simp only [initStep, hr]
  | some rule =>
    cases hen : rule.enabled with
    | false => simp only [initStep, hr, hen, Bool.not_false, if_true]
    | true =>
      cases hcond : st.conditionMetAt with
      | none =>
        simp only [initStep, hr, hen, hcond, Bool.not_true, Bool.false_eq_true,
          if_false]
      | some t0 =>
        by_cases hrem : rule.delaySec * 1000 - (now - t0) ≤ 0
        · simp only [initStep, hr, hen, hcond, Bool.not_true,
            Bool.false_eq_true, if_false, if_pos hrem, transitionState]
        · simp only [initStep, hr, hen, hcond, Bool.not_true,
            Bool.false_eq_true, if_false, if_neg hrem]

lemma initStep_other_state (now : Int) (acc : AlarmDb × AlarmEffects)
    (st : AlarmStateRow) (rid : String) (hne : st.ruleId ≠ rid) :
    findState (initStep now acc st).1.states rid = findState acc.1.states rid := by
  cases hr : findRule acc.1.rules st.ruleId with
  | none => simp only [initStep, hr]
  | some rule =>
    have hid : rule.id = st.ruleId := findRule_some hr
    cases hen : rule.enabled with
    | false => simp only [initStep, hr, hen, Bool.not_false, if_true]
    | true =>
      cases hcond : st.conditionMetAt with
      | none =>
        simp only [initStep, hr, hen, hcond, Bool.not_true, Bool.false_eq_true,
          if_false]
      | some t0 =>
        by_cases hrem : rule.delaySec * 1000 - (now - t0) ≤ 0
        · simp only [initStep, hr, hen, hcond, Bool.not_true,
            Bool.false_eq_true, if_false, if_pos hrem, transitionState]
          exact findState_map_if_ne _ (applyStateUpdate_ruleId _ _ _)
            (hid ▸ hne)
        · simp only [initStep, hr, hen, hcond, Bool.not_true,
            Bool.false_eq_true, if_false, if_neg hrem]

lemma initStep_other_timers (now : Int) (acc : AlarmDb × AlarmEffects)
    (st : AlarmStateRow) (rid : String) (hne : st.ruleId ≠ rid) :
    (initStep now acc st).2.timers.filter (fun p => p.1 == rid) =
      acc.2.timers.filter (fun p => p.1 == rid) := by
  cases hr : findRule acc.1.rules st.ruleId with
  | none => simp only [initStep, hr]
  | some rule =>
    have hid : rule.id = st.ruleId := findRule_some hr
    cases hen : rule.enabled with
    | false => simp only [initStep, hr, hen, Bool.not_false, if_true]
    | true =>
      cases hcond : st.conditionMetAt with
      | none =>
        simp only [initStep, hr, hen, hcond, Bool.not_true, Bool.false_eq_true,
          if_false]
      | some t0 =>
        by_cases hrem : rule.delaySec * 1000 - (now - t0) ≤ 0
        · simp only [initStep, hr, hen, hcond, Bool.not_true,
            Bool.false_eq_true, if_false, if_pos hrem, transitionState]
          simp [AlarmEffects.merge]
        · simp only [initStep, hr, hen, hcond, Bool.not_true,
            Bool.false_eq_true, if_false, if_neg hrem]
          simp [AlarmEffects.merge, List.filter_append, hid, hne]

lemma foldl_init_other (now : Int) (l : List AlarmStateRow)
    (acc : AlarmDb × AlarmEffects) (rid : String)
    (h : ∀ st ∈ l, st.ruleId ≠ rid) :
    findState ((l.foldl (initStep now) acc).1.states) rid =
      findState acc.1.states rid ∧
    ((l.foldl (initStep now) acc).2.timers.filter (fun p => p.1 == rid)) =
      acc.2.timers.filter (fun p => p.1 == rid) ∧
    (l.foldl (initStep now) acc).1.rules = acc.1.rules := by
  induction l generalizing acc with
  | nil => exact ⟨rfl, rfl, rfl⟩
  | cons a t ih =>
    simp only [List.foldl_cons]
    obtain ⟨h1, h2, h3⟩ := ih (initStep now acc a)
      (fun st hst => h st (List.mem_cons_of_mem _ hst))
    refine ⟨?_, ?_, ?_⟩
    · rw [h1, initStep_other_state now acc a rid (h a (List.mem_cons_self _ _))]
    · rw [h2, initStep_other_timers now acc a rid (h a (List.mem_cons_self _ _))]
    · rw [h3, initStep_rules]

lemma findState_of_mem_nodup {states : List AlarmStateRow} {st : AlarmStateRow}
    (h : st ∈ states) (hnodup : (states.map (fun r => r.ruleId)).Nodup) :
    findState states st.ruleId = some st := by
  induction states with
  | nil => cases h
  | cons a l ih =>
    rw [List.map_cons, List.nodup_cons] at hnodup
    rcases List.mem_cons.mp h with rfl | h2
    · simp only [findState, List.find?, beq_self_eq_true]
    · have hne : a.ruleId ≠ st.ruleId :=
        fun he => hnodup.1 (he ▸ List.mem_map_of_mem _ h2)
      have hb : (a.ruleId == st.ruleId) = false := by simp [hne]
      simp only [findState, List.find?, hb]
      exact ih h2 hnodup.2

lemma initStep_own (now : Int) (acc : AlarmDb × AlarmEffects)
    (st : AlarmStateRow) (rule : AlarmRule) (r0 : AlarmStateRow)
    (hrule : findRule acc.1.rules st.ruleId = some rule)
    (hr0 : findState acc.1.states st.ruleId = some r0) :
    (rule.enabled = false → initStep now acc st = acc) ∧
    (rule.enabled = true → ∀ t0, st.conditionMetAt = some t0 →
      ((rule.delaySec * 1000 - (now - t0) ≤ 0 →
        findState (initStep now acc st).1.states st.ruleId =
          some (applyStateUpdate "active" st.lastValue now r0) ∧
        (initStep now acc st).2.timers = acc.2.timers ∧
        (initStep now acc st).1.rules = acc.1.rules) ∧
       (0 < rule.delaySec * 1000 - (now - t0) →
        (initStep now acc st).1 = acc.1 ∧
        (initStep now acc st).2.timers =
          acc.2.timers ++ [(st.ruleId, rule.delaySec * 1000 - (now - t0))]))) := by
  have hid : rule.id = st.ruleId := findRule_some hrule
  constructor
  · intro hen
    simp only [initStep, hrule, hen, Bool.not_false, if_true]
  · intro hen t0 hcond
    constructor
    · intro hrem
      simp only [initStep, hrule, hen, hcond, Bool.not_true, Bool.false_eq_true,
        if_false, if_pos hrem, transitionState]
      refine ⟨?_, by simp [AlarmEffects.merge], by trivial⟩
      rw [findState_map_if rule.id st.ruleId _ (applyStateUpdate_ruleId _ _ _),
        hr0]
      simp [findState_some hr0, hid]
    · intro hrem
      simp only [initStep, hrule, hen, hcond, Bool.not_true, Bool.false_eq_true,
        if_false, if_neg (by omega : ¬ rule.delaySec * 1000 - (now - t0) ≤ 0)]
      exact ⟨by trivial, by simp [AlarmEffects.merge, hid]⟩

/-- Claim C2 (corrected): on initialisation, for every pending state
row whose rule exists: if the rule is enabled and condition_met_at is
set, the engine computes remaining = delaySec*1000 - (now -
condition_met_at) and either transitions the row to active immediately
(remaining ≤ 0) or schedules exactly one timer carrying exactly
remaining; but a rule that was disabled while pending is skipped — its
row remains in pending, it is not reset to normal. -/
theorem initializeAlarms_restart_behaviour :
    ∀ (db : AlarmDb) (now : Int),
      (db.states.map (fun r => r.ruleId)).Nodup →
      ∀ st ∈ db.states, st.state = "pending" →
      ∀ rule, findRule db.rules st.ruleId = some rule →
      (rule.enabled = false →
        findState (initializeAlarms db now).1.states st.ruleId = some st ∧
        (initializeAlarms db now).2.timers.filter
          (fun p => p.1 == st.ruleId) = []) ∧
      (rule.enabled = true → ∀ t0, st.conditionMetAt = some t0 →
        (rule.delaySec * 1000 - (now - t0) ≤ 0 →
          ∃ st2, findState (initializeAlarms db now).1.states st.ruleId =
              some st2 ∧
            st2.state = "active" ∧ st2.activatedAt = some now ∧
            (initializeAlarms db now).2.timers.filter
              (fun p => p.1 == st.ruleId) = []) ∧
        (0 < rule.delaySec * 1000 - (now - t0) →
          findState (initializeAlarms db now).1.states st.ruleId = some st ∧
          (initializeAlarms db now).2.timers.filter
            (fun p => p.1 == st.ruleId) =
            [(st.ruleId, rule.delaySec * 1000 - (now - t0))])) := by
  intro db now hnodup st hmem hpend rule hrule
  have hmemP : st ∈ db.states.filter (fun s0 => s0.state == "pending") :=
    List.mem_filter.mpr ⟨hmem, by simp [hpend]⟩
  obtain ⟨P1, P2, hsplit⟩ := List.append_of_mem hmemP
  have hPnodup : ((db.states.filter (fun s0 => s0.state == "pending")).map
      (fun r => r.ruleId)).Nodup :=
    hnodup.sublist ((List.filter_sublist db.states).map _)
  rw [hsplit, List.map_append, List.map_cons] at hPnodup
  have hP1 : ∀ a ∈ P1, a.ruleId ≠ st.ruleId := by
    intro a ha he
    exact (List.disjoint_of_nodup_append hPnodup) (List.mem_map_of_mem _ ha)
      (by simp [he])
  have hP2 : ∀ a ∈ P2, a.ruleId ≠ st.ruleId := by
    intro a ha he
    have := (List.nodup_append.mp hPnodup).2.1
    rw [List.nodup_cons] at this
    exact this.1 (he ▸ List.mem_map_of_mem _ ha)
  have hinit : initializeAlarms db now =
      P2.foldl (initStep now)
        (initStep now (P1.foldl (initStep now) (db, emptyEffects)) st) := by
    rw [initializeAlarms, hsplit, List.foldl_append, List.foldl_cons]
  obtain ⟨hacc1state, hacc1timers, hacc1rules⟩ :=
    foldl_init_other now P1 (db, emptyEffects) st.ruleId hP1
  set acc1 := P1.foldl (initStep now) (db, emptyEffects) with hacc1
  have hst1 : findState acc1.1.states st.ruleId = some st := by
    rw [hacc1state]
    exact findState_of_mem_nodup hmem hnodup
  have hrule1 : findRule acc1.1.rules st.ruleId = some rule := by
    rw [hacc1rules]
    exact hrule
  obtain ⟨hown1, hown2⟩ := initStep_own now acc1 st rule st hrule1 hst1
  obtain ⟨haftstate, hafttimers, -⟩ :=
    foldl_init_other now P2 (initStep now acc1 st) st.ruleId hP2
  constructor
  · intro hen
    rw [hinit]
    constructor
    · rw [haftstate, hown1 hen, hst1]
    · rw [hafttimers, hown1 hen, hacc1timers]
      rfl
  · intro hen t0 hcond
    obtain ⟨hle, hgt⟩ := hown2 hen t0 hcond
    constructor
    · intro hrem
      obtain ⟨hs, ht, -⟩ := hle hrem
      refine ⟨applyStateUpdate "active" st.lastValue now st, ?_, ?_, ?_, ?_⟩
      · rw [hinit, haftstate, hs]
      · exact applyStateUpdate_state _ _ _ _
      · rfl
      · rw [hinit, hafttimers, ht, hacc1timers]
        rfl
    · intro hrem
      obtain ⟨hs, ht⟩ := hgt hrem
      constructor
      · rw [hinit, haftstate, hs, hst1]
      · rw [hinit, hafttimers, ht, List.filter_append, hacc1timers]
        simp [emptyEffects]

/-- Claim C2 counterexample: initialising over a database whose only
rule is disabled but whose state row is pending leaves the row in
pending — it is not reset to normal as the claim requires. -/
theorem initializeAlarms_disabled_pending_counterexample :
    findState (initializeAlarms dbDisabledPending 1000000).1.states "r2" =
      some (pendingRow "r2") ∧
    (pendingRow "r2").state = "pending" ∧ ruleOff.enabled = false ∧
    (pendingRow "r2").state ≠ "normal" := by
  refine ⟨by decide, by decide, by decide, by decide⟩

/-- Claim C2 witness: the restart theorem instantiated on a concrete
pending database, once before the delay expires (a timer with exactly
the remaining 20000 ms is scheduled) and once after (the row goes
active immediately). -/
theorem initializeAlarms_restart_behaviour_witness :
    (findState (initializeAlarms dbEnabledPending 10000).1.states "r1" =
        some (pendingRow "r1") ∧
      (initializeAlarms dbEnabledPending 10000).2.timers.filter
        (fun p => p.1 == "r1") = [("r1", 20000)]) ∧
    (∃ st2, findState (initializeAlarms dbEnabledPending 40000).1.states "r1" =
        some st2 ∧ st2.state = "active" ∧ st2.activatedAt = some 40000 ∧
      (initializeAlarms dbEnabledPending 40000).2.timers.filter
        (fun p => p.1 == "r1") = []) := by
  constructor
  · exact ((initializeAlarms_restart_behaviour dbEnabledPending 10000 (by decide)
      (pendingRow "r1") (by decide) (by decide) ruleEnabled (by decide)).2
      (by decide) 0 (by decide)).2 (by decide)
  · exact ((initializeAlarms_restart_behaviour dbEnabledPending 40000 (by decide)
      (pendingRow "r1") (by decide) (by decide) ruleEnabled (by decide)).2
      (by decide) 0 (by decide)).1 (by decide)

/-- Claim C9 (confirmed): each delete resolver mutates the in-memory
topology first, then removes the matching hot-cache keys when the cache
is connected, then deletes the matching time-series rows, then the
matching hidden_items rows, then the matching metric_properties rows;
when the time-series deletion fails the resolver returns the error with
the topology and cache changes already applied (not rolled back) and
the hidden_items and metric_properties steps not performed.  The
histFails flag stands for a storage failure in the (spec-modelled)
history deletion. -/
theorem delete_resolvers_order_and_abort :
    ∀ (s : SysState) (g n d m : String) (dOpt : Option String),
      (let f := deleteNodeResolver true s g n
       (∃ e, f.1 = some e) ∧
       f.2.topology = topoDeleteNode s.topology g n ∧
       f.2.redisKeys =
         (if s.redisConnected then redisDeleteNode s.redisKeys g n
          else s.redisKeys) ∧
       f.2.history = s.history ∧
       f.2.historyProperties = s.historyProperties ∧
       f.2.hiddenItems = s.hiddenItems ∧
       f.2.metricProperties = s.metricProperties) ∧
      (let k := deleteNodeResolver false s g n
       k.1 = none ∧
       k.2.topology = topoDeleteNode s.topology g n ∧
       k.2.redisKeys =
         (if s.redisConnected then redisDeleteNode s.redisKeys g n
          else s.redisKeys) ∧
       k.2.history =
         s.history.filter (fun r => !(r.groupId == g && r.nodeId == n)) ∧
       k.2.historyProperties =
         s.historyProperties.filter (fun r => !(r.groupId == g && r.nodeId == n)) ∧
       k.2.hiddenItems =
         s.hiddenItems.filter (fun it => !(it.groupId == g && it.nodeId == n)) ∧
       k.2.metricProperties =
         s.metricProperties.filter (fun r => !(r.groupId == g && r.nodeId == n))) ∧
      (let f := deleteDeviceResolver true s g n d
       (∃ e, f.1 = some e) ∧
       f.2.topology = topoDeleteDevice s.topology g n d ∧
       f.2.redisKeys =
         (if s.redisConnected then redisDeleteDevice s.redisKeys g n d
          else s.redisKeys) ∧
       f.2.history = s.history ∧
       f.2.historyProperties = s.historyProperties ∧
       f.2.hiddenItems = s.hiddenItems ∧
       f.2.metricProperties = s.metricProperties) ∧
      (let k := deleteDeviceResolver false s g n d
       k.1 = none ∧
       k.2.topology = topoDeleteDevice s.topology g n d ∧
       k.2.redisKeys =
         (if s.redisConnected then redisDeleteDevice s.redisKeys g n d
          else s.redisKeys) ∧
       k.2.history = s.history.filter (fun r =>
         !(r.groupId == g && r.nodeId == n && r.deviceId == some d)) ∧
       k.2.historyProperties = s.historyProperties.filter (fun r =>
         !(r.groupId == g && r.nodeId == n && r.deviceId == some d)) ∧
       k.2.hiddenItems = s.hiddenItems.filter (fun it =>
         !(it.groupId == g && it.nodeId == n && it.deviceId == d)) ∧
       k.2.metricProperties = s.metricProperties.filter (fun r =>
         !(r.groupId == g && r.nodeId == n && r.deviceId == d))) ∧
      (let f := deleteMetricResolver true s g n dOpt m
       (∃ e, f.1 = some e) ∧
       f.2.topology = topoDeleteMetric s.topology g n dOpt m ∧
       f.2.redisKeys =
         (if s.redisConnected then redisDeleteMetric s.redisKeys g n dOpt m
          else s.redisKeys) ∧
       f.2.history = s.history ∧
       f.2.historyProperties = s.historyProperties ∧
       f.2.hiddenItems = s.hiddenItems ∧
       f.2.metricProperties = s.metricProperties) ∧
      (let k := deleteMetricResolver false s g n dOpt m
       k.1 = none ∧
       k.2.topology = topoDeleteMetric s.topology g n dOpt m ∧
       k.2.redisKeys =
         (if s.redisConnected then redisDeleteMetric s.redisKeys g n dOpt m
          else s.redisKeys) ∧
       k.2.history = s.history.filter (fun r =>
         !(r.groupId == g && r.nodeId == n &&
           r.deviceId == normalizeDevice dOpt && r.metricId == m)) ∧
       k.2.historyProperties = s.historyProperties.filter (fun r =>
         !(r.groupId == g && r.nodeId == n &&
           r.deviceId == normalizeDevice dOpt && r.metricId == m)) ∧
       k.2.hiddenItems = s.hiddenItems.filter (fun it =>
         !(it.groupId == g && it.nodeId == n &&
           it.deviceId == (normalizeDevice dOpt).getD "" && it.metricId == m)) ∧
       k.2.metricProperties = s.metricProperties.filter (fun r =>
         !(r.groupId == g && r.nodeId == n &&
           r.deviceId == (normalizeDevice dOpt).getD "" && r.metricId == m))) := by
  intro s g n d m dOpt
  refine ⟨?_, ?_, ?_, ?_, ?_, ?_⟩ <;>
    cases hr : s.redisConnected <;>
    simp [deleteNodeResolver, deleteDeviceResolver, deleteMetricResolver,
      deleteNodeHistory, deleteDeviceHistory, deleteMetricHistory, hr]

lemma contains_true_of_mem {l : List String} {a : String} (h : a ∈ l) :
    l.contains a = true := by
  simpa using h

lemma shouldFilter_of_node_mem {keys : List String} {g n : String}
    (h : ("node:" ++ g ++ "/" ++ n) ∈ keys) (dv mid : Option String) :
    shouldFilter keys g n dv mid = true := by
  unfold shouldFilter
  rw [if_pos (contains_true_of_mem h)]

lemma shouldFilter_of_device_mem {keys : List String} {g n d : String}
    (hd : d ≠ "") (h : ("device:" ++ g ++ "/" ++ n ++ "/" ++ d) ∈ keys)
    (mid : Option String) :
    shouldFilter keys g n (some d) mid = true := by
  unfold shouldFilter
  by_cases hnode : keys.contains ("node:" ++ g ++ "/" ++ n) = true
  · rw [if_pos hnode]
  · rw [if_neg hnode, if_pos]
    simp only [Option.getD_some]
    refine (Bool.and_eq_true _ _).mpr ⟨by simp [hd], contains_true_of_mem ?_⟩
    simpa using h

/-- Claim C10 (corrected): with includeHidden = true the hidden filter
is skipped entirely; with includeHidden = false a hidden node is absent
from the result (so all its devices and metrics are eliminated) and a
hidden device is absent from its node (so all its metrics are
eliminated); and groups left with zero nodes are pruned — but only when
the hidden-key set is nonempty, since the resolver short-circuits and
returns the unfiltered groups (including any zero-node groups) when
there are no hidden items. -/
theorem groupsResolver_hidden_cascade :
    ∀ (items : List HiddenItemRec) (groups : List GroupFlat),
      (groupsResolver true items groups = groups) ∧
      (∀ item ∈ items, item.deviceId = "" → item.metricId = "" →
        ∀ gr ∈ groupsResolver false items groups, gr.id = item.groupId →
        ∀ nd ∈ gr.nodes, nd.id ≠ item.nodeId) ∧
      (∀ item ∈ items, item.deviceId ≠ "" → item.metricId = "" →
        ∀ gr ∈ groupsResolver false items groups, gr.id = item.groupId →
        ∀ nd ∈ gr.nodes, nd.id = item.nodeId →
        ∀ dv ∈ nd.devices, dv.id ≠ item.deviceId) ∧
      (getHiddenItemKeys items ≠ [] →
        ∀ gr ∈ groupsResolver false items groups, gr.nodes ≠ []) := by
  intro items groups
  refine ⟨rfl, ?_, ?_, ?_⟩
  · intro item hitem hdev hmet gr hgr hgid nd hnd hnid
    have hkey : ("node:" ++ item.groupId ++ "/" ++ item.nodeId) ∈
        getHiddenItemKeys items := by
      rw [getHiddenItemKeys]
      refine List.mem_map.mpr ⟨item, hitem, ?_⟩
      simp [hdev, hmet]
    have hkeysne : ((getHiddenItemKeys items).length == 0) = false := by
      simp only [beq_eq_false_iff_ne, ne_eq, List.length_eq_zero]
      intro habs
      rw [habs] at hkey
      cases hkey
    rw [groupsResolver, if_neg (by simp), if_neg (by simp [hkeysne])] at hgr
    rw [filterGroups, List.mem_filter] at hgr
    obtain ⟨hgr1, -⟩ := hgr
    obtain ⟨g0, hg0, hfg⟩ := List.mem_map.mp hgr1
    subst hfg
    rw [filterGroup] at hnd hgid
    simp only at hnd hgid
    obtain ⟨nd0, hnd0, hfn⟩ := List.mem_map.mp hnd
    rw [List.mem_filter] at hnd0
    obtain ⟨-, hkept⟩ := hnd0
    have hid0 : nd.id = nd0.id := by rw [← hfn]; rfl
    rw [shouldFilter_of_node_mem
      (by rw [hgid, ← hid0, hnid]; exact hkey) none none] at hkept
    simp at hkept
  · intro item hitem hdev hmet gr hgr hgid nd hnd hnid dv hdv hdid
    have hkey : ("device:" ++ item.groupId ++ "/" ++ item.nodeId ++ "/" ++
        item.deviceId) ∈ getHiddenItemKeys items := by
      rw [getHiddenItemKeys]
      refine List.mem_map.mpr ⟨item, hitem, ?_⟩
      simp [hdev, hmet]
    have hkeysne : ((getHiddenItemKeys items).length == 0) = false := by
      simp only [beq_eq_false_iff_ne, ne_eq, List.length_eq_zero]
      intro habs
      rw [habs] at hkey
      cases hkey
    rw [groupsResolver, if_neg (by simp), if_neg (by simp [hkeysne])] at hgr
    rw [filterGroups, List.mem_filter] at hgr
    obtain ⟨hgr1, -⟩ := hgr
    obtain ⟨g0, hg0, hfg⟩ := List.mem_map.mp hgr1
    subst hfg
    rw [filterGroup] at hnd hgid
    simp only at hnd hgid
    obtain ⟨nd0, hnd0, hfn⟩ := List.mem_map.mp hnd
    rw [← hfn] at hnid hdv
    rw [filterNode] at hdv
    simp only at hdv hnid
    obtain ⟨dv0, hdv0, hfd⟩ := List.mem_map.mp hdv
    rw [List.mem_filter] at hdv0
    obtain ⟨-, hkept⟩ := hdv0
    have hdid0 : dv.id = dv0.id := by rw [← hfd]; rfl
    have hnodeid : nd0.id = item.nodeId := hnid
    rw [shouldFilter_of_device_mem (hdid0 ▸ hdid ▸ hdev) ?_ none] at hkept
    · simp at hkept
    · rw [hgid, hnodeid, ← hdid0, hdid]
      exact hkey
  · intro hkeys gr hgr
    have hkeysne : ((getHiddenItemKeys items).length == 0) = false := by
      simpa [beq_eq_false_iff_ne, ne_eq, List.length_eq_zero] using hkeys
    rw [groupsResolver, if_neg (by simp), if_neg (by simp [hkeysne])] at hgr
    rw [filterGroups, List.mem_filter] at hgr
    obtain ⟨-, hlen⟩ := hgr
    simpa [List.length_eq_zero] using hlen

/-- Claim C10 counterexample: with no hidden items and includeHidden =
false, a group that already has zero nodes (as left behind after its
last node is deleted) is returned rather than pruned. -/
theorem groupsResolver_empty_group_counterexample :
    groupsResolver false [] [emptyGroup] = [emptyGroup] ∧
    emptyGroup.nodes = [] := by
  exact ⟨rfl, rfl⟩

/-- Claim C10 witness: the cascade theorem applied at a concrete
topology with node (G, N1) hidden — the skip-filter clause, and the
node-hide clause instantiated at the surviving node N2. -/
theorem groupsResolver_hidden_cascade_witness :
    groupsResolver true [hideNodeItem] sampleGroups = sampleGroups ∧
    (NodeFlat.mk "N2" [] []).id ≠ "N1" := by
  constructor
  · exact (groupsResolver_hidden_cascade [hideNodeItem] sampleGroups).1
  · exact (groupsResolver_hidden_cascade [hideNodeItem] sampleGroups).2.1
      hideNodeItem (by decide) (by decide) (by decide)
      (GroupFlat.mk "G" [NodeFlat.mk "N2" [] []]) (by decide) (by decide)
      (NodeFlat.mk "N2" [] []) (by decide)

end Mantle
